import Mathlib

/-!
# Verification of the Flappy Bird game simulation core

Shallow embedding of the game simulation implemented in `src/src/App.js`:
the `Bird` and `Pipe` entity classes and the `Game` component's state and
per-tick `update` logic.  JavaScript numbers are modelled as rationals
(`ℚ`); the unseeded `Math.random()` call in `generatePipes` is modelled by
an explicit parameter `r` ranged over `[0, 1)`; the `setInterval` timer
handle (`this.loop`) is modelled by the boolean field `loopRunning`
(`clearInterval` sets it to `false`, `setInterval` to `true`).  React
`setState` calls fired from the native DOM listeners used here apply
synchronously in React 16, so state mutation is modelled as immediate
sequential update.
-/

/-- Game constant `HEIGHT = 500` from App.js. -/
def HEIGHT : ℚ := 500

/-- Game constant `WIDTH = 800` from App.js. -/
def WIDTH : ℚ := 800

/-- Game constant `PIPE_WIDTH = 60` from App.js. -/
def PIPE_WIDTH : ℚ := 60

/-- Game constant `MIN_PIPE_HEIGHT = 30` from App.js. -/
def MIN_PIPE_HEIGHT : ℚ := 30

/-- Game constant `PIPE_GAP = 200` from App.js. -/
def PIPE_GAP : ℚ := 200

/-- Axis-aligned bounding box as returned by `getBounds` in App.js. -/
structure Rect where
  left : ℚ
  right : ℚ
  top : ℚ
  bottom : ℚ
deriving DecidableEq

/-- The `Bird` class: position `(x, y)`, gravity, vertical velocity and
radius.  The rendering context `ctx` and the `draw` method are pure
output and are not part of the simulation state. -/
structure Bird where
  x : ℚ
  y : ℚ
  gravity : ℚ
  velocity : ℚ
  radius : ℚ
deriving DecidableEq

/-- The `Bird` constructor: `x = 150`, `y = HEIGHT / 2`, `gravity = 0.4`,
`velocity = 0`, `radius = 12`. -/
def Bird.create : Bird :=
  { x := 150, y := HEIGHT / 2, gravity := 2/5, velocity := 0, radius := 12 }

/-- `Bird.update`: `this.velocity += this.gravity; this.y += this.velocity;`
(velocity updated strictly before the position). -/
def Bird.update (b : Bird) : Bird :=
  let v := b.velocity + b.gravity
  { b with velocity := v, y := b.y + v }

/-- `Bird.jump`: `this.velocity = -8;`. -/
def Bird.jump (b : Bird) : Bird :=
  { b with velocity := -8 }

/-- `Bird.getBounds`. -/
def Bird.getBounds (b : Bird) : Rect :=
  { left := b.x - b.radius, right := b.x + b.radius,
    top := b.y - b.radius, bottom := b.y + b.radius }

/-- The `Pipe` class.  `isBottom` distinguishes the lower member of a
pair; `scored` records whether this pipe has contributed to the score. -/
structure Pipe where
  isDead : Bool
  x : ℚ
  width : ℚ
  isBottom : Bool
  scored : Bool
  y : ℚ
  height : ℚ
deriving DecidableEq

/-- The `Pipe` constructor: spawns at `x = WIDTH` with `width = PIPE_WIDTH`,
`isDead = false`, `scored = false`; a bottom pipe sits at
`y = HEIGHT - height`, a top pipe at `y = 0`. -/
def Pipe.create (height : ℚ) (isBottom : Bool) : Pipe :=
  { isDead := false, x := WIDTH, width := PIPE_WIDTH, isBottom := isBottom,
    scored := false, y := if isBottom then HEIGHT - height else 0,
    height := height }

/-- `Pipe.update`: `this.x -= 1.5; if (this.x + PIPE_WIDTH < 0) this.isDead = true;`
(the death test reads the already-moved `x`). -/
def Pipe.update (p : Pipe) : Pipe :=
  let x1 := p.x - 3/2
  { p with x := x1, isDead := if x1 + PIPE_WIDTH < 0 then true else p.isDead }

/-- `Pipe.getBounds`. -/
def Pipe.getBounds (p : Pipe) : Rect :=
  { left := p.x, right := p.x + p.width, top := p.y, bottom := p.y + p.height }

/-- The scoring condition tested inside the `forEach` of `Game.update`:
`!pipe.scored && pipe.x + PIPE_WIDTH < this.bird.x && !pipe.isBottom`
(evaluated on the already-moved pipe, `x` being the bird's abscissa). -/
def scoringHit (x : ℚ) (p : Pipe) : Bool :=
  !p.scored && decide (p.x + PIPE_WIDTH < x) && !p.isBottom

/-- One iteration of the `forEach` body of `Game.update` on a single pipe:
move the pipe, then mark it `scored` when the scoring condition fires. -/
def scoreStep (x : ℚ) (p : Pipe) : Pipe :=
  let p1 := Pipe.update p
  if scoringHit x p1 then { p1 with scored := true } else p1

/-- The full `forEach` loop of `Game.update`: each pipe is moved and the
score (second component) is incremented by 1 for each pipe whose scoring
condition fires, sequentially left to right as `setState` applies. -/
def scoreScan (x : ℚ) : List Pipe → ℕ → List Pipe × ℕ
  | [], sc => ([], sc)
  | p :: rest, sc =>
    let p1 := Pipe.update p
    if scoringHit x p1 then
      let t := scoreScan x rest (sc + 1)
      ({ p1 with scored := true } :: t.1, t.2)
    else
      let t := scoreScan x rest sc
      (p1 :: t.1, t.2)

/-- The state held by the `Game` component: the React state fields
`gameStarted`, `gameOver`, `score`, `paused` together with the instance
fields `frameCount`, `pipes`, `bird` and the interval handle
(`loopRunning`). -/
structure Game where
  gameStarted : Bool
  gameOver : Bool
  score : ℕ
  paused : Bool
  frameCount : ℕ
  pipes : List Pipe
  bird : Bird
  loopRunning : Bool
deriving DecidableEq

/-- The four session phases of the spec's state machine, derived from the
boolean flags: `gameOver` dominates, then an unstarted session is `Idle`,
then `paused` distinguishes `Paused` from `Running`. -/
inductive Phase where
  | Idle
  | Running
  | Paused
  | Over
deriving DecidableEq

/-- Phase of a `Game` state, read off the boolean flags. -/
def Game.phase (s : Game) : Phase :=
  if s.gameOver then .Over
  else if !s.gameStarted then .Idle
  else if s.paused then .Paused
  else .Running

/-- `Game.generatePipes`, with `this.state.score` and the `Math.random()`
draw passed explicitly: an enlarged gap (`PIPE_GAP + 50`) while
`score < 3`, a top pipe of height `minHeight + r * (maxHeight - minHeight)`
and a complementary bottom pipe. -/
def Game.generatePipes (score : ℕ) (r : ℚ) : List Pipe :=
  let minHeight := MIN_PIPE_HEIGHT
  let currentGap := if score < 3 then PIPE_GAP + 50 else PIPE_GAP
  let maxHeight := HEIGHT - currentGap - minHeight
  let topPipeHeight := minHeight + r * (maxHeight - minHeight)
  let bottomPipeHeight := HEIGHT - topPipeHeight - currentGap
  [Pipe.create topPipeHeight false, Pipe.create bottomPipeHeight true]

/-- `Game.checkCollisions`, as a predicate of the bird and the live pipes
(the fields it reads): the forgiving out-of-bounds test with margin 5,
then an AABB overlap test over the pipes with an inward margin of 3 on
both rectangles. -/
def Game.checkCollisions (b : Bird) (pipes : List Pipe) : Bool :=
  let birdBounds := b.getBounds
  if birdBounds.top ≤ -5 ∨ HEIGHT + 5 ≤ birdBounds.bottom then true
  else
    let margin : ℚ := 3
    pipes.any fun p =>
      let pipeBounds := p.getBounds
      decide (pipeBounds.left + margin < birdBounds.right - margin ∧
        birdBounds.left + margin < pipeBounds.right - margin ∧
        pipeBounds.top + margin < birdBounds.bottom - margin ∧
        birdBounds.top + margin < pipeBounds.bottom - margin)

/-- The pipe list fed to the `forEach` loop of `Game.update`: the incoming
pipes with a freshly generated pair pushed at the back when the
incremented frame counter is a multiple of 240. -/
def Game.spawnList (s : Game) (r : ℚ) : List Pipe :=
  if (s.frameCount + 1) % 240 = 0 then s.pipes ++ Game.generatePipes s.score r
  else s.pipes

/-- `Game.update`, one simulation tick (executed by `gameLoop` while the
interval runs and the game is not paused): increment `frameCount`, spawn a
pair every 240th tick, move/score every pipe, drop dead pipes, advance the
bird, then on collision set `gameOver` and stop the interval
(`submitScore` is an external fire-and-forget call with no effect on the
session state). -/
def Game.update (s : Game) (r : ℚ) : Game :=
  let fc := s.frameCount + 1
  let ps := Game.spawnList s r
  let scanned := scoreScan s.bird.x ps s.score
  let alive := scanned.1.filter fun p => !p.isDead
  let b := Bird.update s.bird
  if Game.checkCollisions b alive then
    { s with frameCount := fc, pipes := alive, score := scanned.2, bird := b, gameOver := true, loopRunning := false }
  else
    { s with frameCount := fc, pipes := alive, score := scanned.2, bird := b }

/-- `Game.initGame`: fresh bird, no pipes, frame counter 0, and
`setState({ score: 0, gameOver: false, gameStarted: false })`.  The
`paused` flag and the interval handle are not touched here. -/
def Game.initGame (s : Game) : Game :=
  { s with bird := Bird.create, pipes := [], frameCount := 0, score := 0, gameOver := false, gameStarted := false }

/-- `Game.startGame`: guarded by `!gameStarted && !gameOver`; sets
`gameStarted` and starts the interval. -/
def Game.startGame (s : Game) : Game :=
  if !s.gameStarted && !s.gameOver then
    { s with gameStarted := true, loopRunning := true }
  else s

/-- `Game.togglePause`: guarded by `gameStarted && !gameOver`; restarts
the interval when currently paused, stops it otherwise, and flips
`paused`. -/
def Game.togglePause (s : Game) : Game :=
  if s.gameStarted && !s.gameOver then
    { s with loopRunning := s.paused, paused := !s.paused }
  else s

/-- `Game.restart`: unconditionally clears the interval and runs
`initGame`. -/
def Game.restart (s : Game) : Game :=
  Game.initGame { s with loopRunning := false }

/-- The guarded jump action shared by the `Space` branch of `onKeyDown`
and by `onClick`: `this.bird.jump()` runs only under
`gameStarted && !gameOver && !paused`. -/
def Game.jumpIfRunning (s : Game) : Game :=
  if s.gameStarted && !s.gameOver && !s.paused then
    { s with bird := s.bird.jump }
  else s

/-- `Game.onClick`: start the game when unstarted, otherwise jump while
running. -/
def Game.onClick (s : Game) : Game :=
  if !s.gameStarted then Game.startGame s
  else Game.jumpIfRunning s

/-- The key codes dispatched by `Game.onKeyDown`. -/
inductive Key where
  | space
  | keyP
  | keyR
  | other

/-- `Game.onKeyDown`: `Space` starts an unstarted game and then attempts
a guarded jump on the resulting state (native-listener `setState` is
synchronous in React 16, so the second `if` reads the started state);
`KeyP` toggles pause; `KeyR` restarts. -/
def Game.onKeyDown (s : Game) (k : Key) : Game :=
  match k with
  | .space =>
    let s1 := if !s.gameStarted then Game.startGame s else s
    Game.jumpIfRunning s1
  | .keyP => Game.togglePause s
  | .keyR => Game.restart s
  | .other => s

/-- `gameLoop`: a tick fires `update` (and the pure `draw`) only while
not paused. -/
def Game.gameLoop (s : Game) (r : ℚ) : Game :=
  if !s.paused then Game.update s r else s

section Lemmas

/-- The list component of the scan is a pointwise map of `scoreStep`. -/
lemma scoreScan_fst (x : ℚ) (ps : List Pipe) (sc : ℕ) :
    (scoreScan x ps sc).1 = ps.map (scoreStep x) := by
  induction ps generalizing sc with
  | nil => rfl
  | cons p rest ih =>
    simp only [scoreScan, List.map, scoreStep]
    by_cases h : scoringHit x (Pipe.update p) = true
    · simp [h, ih]
    · simp [h, ih]

/-- The score component of the scan counts the pipes whose moved position
fires the scoring condition. -/
lemma scoreScan_snd (x : ℚ) (ps : List Pipe) (sc : ℕ) :
    (scoreScan x ps sc).2 = sc + ps.countP (fun p => scoringHit x (Pipe.update p)) := by
  induction ps generalizing sc with
  | nil => simp [scoreScan]
  | cons p rest ih =>
    simp only [scoreScan, List.countP_cons]
    by_cases h : scoringHit x (Pipe.update p) = true
    · simp [h, ih]; omega
    · simp [h, ih]

/-- A tick advances the bird exactly once, on either side of the
collision branch. -/
lemma update_bird (s : Game) (r : ℚ) :
    (Game.update s r).bird = Bird.update s.bird := by
  simp only [Game.update]
  split <;> rfl

/-- A tick increments the frame counter exactly once. -/
lemma update_frameCount (s : Game) (r : ℚ) :
    (Game.update s r).frameCount = s.frameCount + 1 := by
  simp only [Game.update]
  split <;> rfl

/-- The pipes surviving a tick: the spawn-extended list, moved and
scored, with dead pipes filtered out. -/
lemma update_pipes (s : Game) (r : ℚ) :
    (Game.update s r).pipes
      = ((Game.spawnList s r).map (scoreStep s.bird.x)).filter (fun p => !p.isDead) := by
  simp only [Game.update]
  split <;> simp [scoreScan_fst]

/-- The score after a tick: the old score plus the number of scoring hits
over the spawn-extended list. -/
lemma update_score (s : Game) (r : ℚ) :
    (Game.update s r).score
      = s.score + (Game.spawnList s r).countP
          (fun p => scoringHit s.bird.x (Pipe.update p)) := by
  simp only [Game.update]
  split <;> simp [scoreScan_snd]

end Lemmas

/-- C2: for every tick while the state is Running, the actor's physics
step is semi-implicit Euler: the velocity is updated first
(`velocity + gravity`) and the position second (`y + new velocity`), with
no clamping of any kind inside the actor: the equations hold for every
bird state, in particular out-of-bounds ones, and `x`, `radius`,
`gravity` are untouched; the same equations hold for the bird embedded in
a full `Game.update` tick. -/
theorem bird_update_semi_implicit_euler (b : Bird) (s : Game) (r : ℚ) :
    (Bird.update b).velocity = b.velocity + b.gravity
    ∧ (Bird.update b).y = b.y + (b.velocity + b.gravity)
    ∧ (Bird.update b).x = b.x
    ∧ (Bird.update b).radius = b.radius
    ∧ (Bird.update b).gravity = b.gravity
    ∧ (Game.update s r).bird.velocity = s.bird.velocity + s.bird.gravity
    ∧ (Game.update s r).bird.y = s.bird.y + (s.bird.velocity + s.bird.gravity) := by
  refine ⟨rfl, rfl, rfl, rfl, rfl, ?_, ?_⟩ <;> rw [update_bird] <;> rfl

/-- C7: `jump()` overrides the velocity with the fixed impulse `-8`
whatever the prior velocity was, and changes nothing else; and the spec's
scenario holds: from the spawn state (`gravity = 0.4`, velocity 0) one
gravity tick gives velocity `0.4`, while `jump()` followed by one gravity
tick gives velocity `-7.6`. -/
theorem jump_sets_impulse (b : Bird) :
    (Bird.jump b).velocity = -8
    ∧ (Bird.jump b).x = b.x
    ∧ (Bird.jump b).y = b.y
    ∧ (Bird.jump b).gravity = b.gravity
    ∧ (Bird.jump b).radius = b.radius
    ∧ (Bird.update Bird.create).velocity = 2/5
    ∧ (Bird.update (Bird.jump Bird.create)).velocity = -38/5 := by
  refine ⟨rfl, rfl, rfl, rfl, rfl, ?_, ?_⟩ <;>
    norm_num [Bird.update, Bird.jump, Bird.create]

section Helpers

/-- Moving a pipe does not touch its `scored` flag. -/
lemma Pipe.update_scored (p : Pipe) : (Pipe.update p).scored = p.scored := rfl

/-- Moving a pipe does not touch its `isBottom` role. -/
lemma Pipe.update_isBottom (p : Pipe) : (Pipe.update p).isBottom = p.isBottom := rfl

/-- A state whose phase is `Idle` has both flags cleared. -/
lemma phase_eq_idle (s : Game) (h : Game.phase s = Phase.Idle) :
    s.gameOver = false ∧ s.gameStarted = false := by
  cases hgo : s.gameOver <;> cases hgs : s.gameStarted <;> cases hp : s.paused <;>
    simp [Game.phase, hgo, hgs, hp] at h ⊢

/-- A state whose phase is `Over` has the `gameOver` flag set. -/
lemma phase_eq_over (s : Game) (h : Game.phase s = Phase.Over) :
    s.gameOver = true := by
  cases hgo : s.gameOver <;> cases hgs : s.gameStarted <;> cases hp : s.paused <;>
    simp [Game.phase, hgo, hgs, hp] at h ⊢

end Helpers

/-- C1: during a Running tick the score only increases, and it increases
by exactly the number of pipes (in the spawn-extended list) that are
unscored upper pipes whose moved trailing edge (`x + PIPE_WIDTH`) has
passed the bird's abscissa; restricting to lower pipes the count of
scoring hits is zero, so the lower member of a pair never contributes;
and the `scored` flag after the per-pipe step is the old flag OR-ed with
this tick's hit — so a flag once `true` is never reset and a pipe that
scores comes out marked, giving at most (hence exactly) one increment per
pipe over its lifetime. -/
theorem score_update_invariant (s : Game) (r : ℚ) (l : List Pipe) (x : ℚ) (p : Pipe) :
    s.score ≤ (Game.update s r).score
    ∧ (Game.update s r).score
        = s.score + (Game.spawnList s r).countP (fun q => scoringHit s.bird.x (Pipe.update q))
    ∧ (l.filter fun q => q.isBottom).countP (fun q => scoringHit x (Pipe.update q)) = 0
    ∧ (scoreStep x p).scored = (p.scored || scoringHit x (Pipe.update p)) := by
  refine ⟨?_, update_score s r, ?_, ?_⟩
  · rw [update_score]
    exact Nat.le_add_right _ _
  · rw [List.countP_eq_zero]
    intro q hq
    have hb : q.isBottom = true := (List.mem_filter.mp hq).2
    simp [scoringHit, Pipe.update_isBottom, hb]
  · by_cases hhit : scoringHit x (Pipe.update p) = true
    · simp [scoreStep, hhit]
    · simp [scoreStep, hhit, Pipe.update_scored]

/-- C3: for every score and every random draw `r` in `[0, 1)`,
`generatePipes` returns exactly a top pipe and a bottom pipe, both of
height at least `MIN_PIPE_HEIGHT`, whose heights sum with the gap in
force (enlarged by 50 while the score is below 3) to exactly the world
height; in particular once the score reaches 3 the heights satisfy
`top + bottom + PIPE_GAP = HEIGHT`, i.e. `+ 200 = 500`. -/
theorem generatePipes_pair_spec (score : ℕ) (r : ℚ) (h0 : 0 ≤ r) (h1 : r < 1) :
    ∃ t bo, Game.generatePipes score r = [t, bo]
      ∧ t.isBottom = false ∧ bo.isBottom = true
      ∧ MIN_PIPE_HEIGHT ≤ t.height ∧ MIN_PIPE_HEIGHT ≤ bo.height
      ∧ (score < 3 → t.height + bo.height + (PIPE_GAP + 50) = HEIGHT)
      ∧ (3 ≤ score → t.height + bo.height + PIPE_GAP = HEIGHT) := by
  by_cases hs : score < 3
  · refine ⟨_, _, rfl, rfl, rfl, ?_, ?_, fun _ => ?_, fun hc => absurd hc (by omega)⟩ <;>
      simp only [Game.generatePipes, Pipe.create, if_pos hs,
        MIN_PIPE_HEIGHT, HEIGHT, PIPE_GAP] <;>
      nlinarith [h0, h1]
  · refine ⟨_, _, rfl, rfl, rfl, ?_, ?_, fun hc => absurd hc hs, fun _ => ?_⟩ <;>
      simp only [Game.generatePipes, Pipe.create, if_neg hs,
        MIN_PIPE_HEIGHT, HEIGHT, PIPE_GAP] <;>
      nlinarith [h0, h1]

/-- C4: the collision predicate fires whenever the bird's bounding-box
top is at or above `-5` or its bottom is at or below `HEIGHT + 5`,
independently of the obstacle list. -/
theorem checkCollisions_out_of_bounds (b : Bird) (pipes : List Pipe)
    (h : b.getBounds.top ≤ -5 ∨ HEIGHT + 5 ≤ b.getBounds.bottom) :
    Game.checkCollisions b pipes = true := by
  simp only [Game.checkCollisions]
  rw [if_pos h]

/-- A bird whose bottom edge sits at 507, below the forgiving lower
boundary 505. -/
def lowBird : Bird := { Bird.create with y := 495 }

/-- The spec's boundary scenario: bottom `495 + 12 = 507 ≥ 500 + 5`. -/
lemma lowBird_oob : HEIGHT + 5 ≤ lowBird.getBounds.bottom := by
  norm_num [lowBird, Bird.getBounds, Bird.create, HEIGHT]

/-- Witness for C4: with world height 500 and margin 5, a bird whose
bounding-box bottom is 507 collides, even with no obstacles at all. -/
theorem checkCollisions_out_of_bounds_witness :
    Game.checkCollisions lowBird [] = true :=
  checkCollisions_out_of_bounds lowBird [] (Or.inr lowBird_oob)

/-- C5: the collision predicate returns `true` exactly when the
out-of-bounds test fires or some live obstacle overlaps the bird on all
four axes after both rectangles are shrunk inward by the margin 3; the
predicate is a pure function of the bird and pipe list and alters
neither. -/
theorem checkCollisions_iff (b : Bird) (pipes : List Pipe) :
    Game.checkCollisions b pipes = true ↔
      (b.getBounds.top ≤ -5 ∨ HEIGHT + 5 ≤ b.getBounds.bottom)
      ∨ ∃ p ∈ pipes,
          p.getBounds.left + 3 < b.getBounds.right - 3
          ∧ b.getBounds.left + 3 < p.getBounds.right - 3
          ∧ p.getBounds.top + 3 < b.getBounds.bottom - 3
          ∧ b.getBounds.top + 3 < p.getBounds.bottom - 3 := by
  simp only [Game.checkCollisions]
  by_cases h : b.getBounds.top ≤ -5 ∨ HEIGHT + 5 ≤ b.getBounds.bottom
  · simp [h]
  · simp [h, List.any_eq_true]

/-- C6 (amended): the tick counter is incremented as the first step of
`update`, and a fresh pair is generated and appended (before the
move/score scan) exactly on those ticks where the incremented counter is
a multiple of 240 — the 240th, 480th, ... ticks. -/
theorem update_spawn_schedule (s : Game) (r : ℚ) :
    (Game.update s r).frameCount = s.frameCount + 1
    ∧ ((s.frameCount + 1) % 240 = 0 →
        (Game.update s r).pipes
          = ((s.pipes ++ Game.generatePipes s.score r).map (scoreStep s.bird.x)).filter
              (fun p => !p.isDead))
    ∧ ((s.frameCount + 1) % 240 ≠ 0 →
        (Game.update s r).pipes
          = (s.pipes.map (scoreStep s.bird.x)).filter (fun p => !p.isDead)) := by
  refine ⟨update_frameCount s r, fun h => ?_, fun h => ?_⟩ <;>
    rw [update_pipes] <;> simp [Game.spawnList, h]

/-- A freshly started session: Running, frame counter 0, no pipes. -/
def startState : Game := { gameStarted := true, gameOver := false, score := 0, paused := false, frameCount := 0, pipes := [], bird := Bird.create, loopRunning := true }

/-- Counterexample to C6 as stated: on the first Running tick the
entering tick count is 0, a multiple of 240, and a generated pair is
nonempty — yet the tick leaves the pipe list empty, because the code
increments the counter before the spawn check (spawn fires when the
incremented counter is a multiple of 240), not as a final sixth step. -/
theorem update_spawn_schedule_cex :
    startState.frameCount % 240 = 0
    ∧ Game.generatePipes startState.score (1/2) ≠ []
    ∧ (Game.update startState (1/2)).pipes = [] := by
  refine ⟨rfl, by simp [Game.generatePipes], ?_⟩
  rw [update_pipes]
  simp [Game.spawnList, startState]

/-- A spawn-edge state: the 240th tick is about to run. -/
def spawnState : Game := { gameStarted := true, gameOver := false, score := 3, paused := false, frameCount := 239, pipes := [], bird := Bird.create, loopRunning := true }

/-- Witness for the amended C6: from frame counter 239 the tick
increments the counter to 240 and appends a generated pair. -/
theorem update_spawn_schedule_witness :
    (Game.update spawnState (1/2)).frameCount = spawnState.frameCount + 1
    ∧ (Game.update spawnState (1/2)).pipes
        = ((spawnState.pipes ++ Game.generatePipes spawnState.score (1/2)).map
            (scoreStep spawnState.bird.x)).filter (fun p => !p.isDead) :=
  ⟨(update_spawn_schedule spawnState (1/2)).1,
   (update_spawn_schedule spawnState (1/2)).2.1 rfl⟩

/-- C8: restarting a session whose phase is `Over` returns it to `Idle`
with score 0, no pipes, frame counter 0, the bird back at its spawn
position and velocity, and both the started and over flags cleared. -/
theorem restart_from_over (s : Game) (h : Game.phase s = Phase.Over) :
    Game.phase (Game.restart s) = Phase.Idle
    ∧ (Game.restart s).score = 0
    ∧ (Game.restart s).pipes = []
    ∧ (Game.restart s).frameCount = 0
    ∧ (Game.restart s).bird = Bird.create
    ∧ (Game.restart s).gameStarted = false
    ∧ (Game.restart s).gameOver = false :=
  ⟨rfl, rfl, rfl, rfl, rfl, rfl, rfl⟩

/-- A game-over session with a nonzero score and a leftover pipe. -/
def overExample : Game := { gameStarted := true, gameOver := true, score := 7, paused := false, frameCount := 961, pipes := [Pipe.create 100 true], bird := Bird.create, loopRunning := false }

/-- Witness for C8 at a concrete game-over session. -/
theorem restart_from_over_witness :
    Game.phase (Game.restart overExample) = Phase.Idle
    ∧ (Game.restart overExample).score = 0
    ∧ (Game.restart overExample).pipes = []
    ∧ (Game.restart overExample).frameCount = 0
    ∧ (Game.restart overExample).bird = Bird.create
    ∧ (Game.restart overExample).gameStarted = false
    ∧ (Game.restart overExample).gameOver = false :=
  restart_from_over overExample rfl

/-- C9: illegal transitions are no-ops, never errors: the guarded jump
action leaves an `Idle` session entirely unchanged (in particular the
bird's velocity), a click on an `Idle` session starts it without touching
the bird's velocity, and a pause toggle on an `Over` session leaves the
whole session state unchanged. -/
theorem illegal_transitions_noop (s : Game) :
    (Game.phase s = Phase.Idle → Game.jumpIfRunning s = s)
    ∧ (Game.phase s = Phase.Idle → (Game.onClick s).bird.velocity = s.bird.velocity)
    ∧ (Game.phase s = Phase.Over → Game.togglePause s = s) := by
  refine ⟨fun h => ?_, fun h => ?_, fun h => ?_⟩
  · obtain ⟨hgo, hgs⟩ := phase_eq_idle s h
    simp [Game.jumpIfRunning, hgs]
  · obtain ⟨hgo, hgs⟩ := phase_eq_idle s h
    simp [Game.onClick, Game.startGame, Game.jumpIfRunning, hgs, hgo]
  · have hgo := phase_eq_over s h
    simp [Game.togglePause, hgo]

/-- An idle session awaiting its start trigger. -/
def idleExample : Game := { gameStarted := false, gameOver := false, score := 0, paused := false, frameCount := 0, pipes := [], bird := Bird.create, loopRunning := false }

/-- Witness for C9: concrete idle and game-over sessions. -/
theorem illegal_transitions_noop_witness :
    Game.jumpIfRunning idleExample = idleExample
    ∧ (Game.onClick idleExample).bird.velocity = idleExample.bird.velocity
    ∧ Game.togglePause overExample = overExample :=
  ⟨(illegal_transitions_noop idleExample).1 rfl,
   (illegal_transitions_noop idleExample).2.1 rfl,
   (illegal_transitions_noop overExample).2.2 rfl⟩

/-- C10: the restart trigger is accepted in every state: it always stops
the interval, zeroes the score, empties the pipe list, zeroes the frame
counter, respawns the bird, clears the started and over flags — and
leaves the `paused` flag exactly as it was; the `KeyR` branch of
`onKeyDown` dispatches to this unconditionally. -/
theorem restart_any_state (s : Game) :
    (Game.restart s).loopRunning = false
    ∧ (Game.restart s).score = 0
    ∧ (Game.restart s).pipes = []
    ∧ (Game.restart s).frameCount = 0
    ∧ (Game.restart s).bird = Bird.create
    ∧ (Game.restart s).gameStarted = false
    ∧ (Game.restart s).gameOver = false
    ∧ (Game.restart s).paused = s.paused
    ∧ Game.onKeyDown s Key.keyR = Game.restart s :=
  ⟨rfl, rfl, rfl, rfl, rfl, rfl, rfl, rfl, rfl⟩

/-- The draw one half lies in the unit interval: lower bound. -/
lemma half_nonneg_q : 0 ≤ (1/2 : ℚ) := by norm_num

/-- The draw one half lies in the unit interval: upper bound. -/
lemma half_lt_one_q : (1/2 : ℚ) < 1 := by norm_num

/-- Witness for C3: the pair generated at score 5 with draw one half. -/
theorem generatePipes_pair_spec_witness :
    ∃ t bo, Game.generatePipes 5 (1/2) = [t, bo]
      ∧ t.isBottom = false ∧ bo.isBottom = true
      ∧ MIN_PIPE_HEIGHT ≤ t.height ∧ MIN_PIPE_HEIGHT ≤ bo.height
      ∧ ((5:ℕ) < 3 → t.height + bo.height + (PIPE_GAP + 50) = HEIGHT)
      ∧ (3 ≤ (5:ℕ) → t.height + bo.height + PIPE_GAP = HEIGHT) :=
  generatePipes_pair_spec 5 (1/2) half_nonneg_q half_lt_one_q
